import Mathlib

/-!
Verification development for the SpadesX block-edit core: a shallow embedding
of `Source/Server/Block.c`, `Source/Server/Plugin.c` and the plugin API
(`Source/Server/PluginAPI.h`), together with theorems settling the spec's
claims about terrain edits, the plugin dispatch chain, and the plugin
capability surface.

Machine integers: the C code's `uint32_t` coordinates are embedded as `Nat`
with explicit reduction modulo `2 ^ 32` exactly where the C arithmetic can
wrap (the `DestroyColumnOfThree` loop and its `Z - 1` / `Z + 1` gamemode
probes); `int32_t` quantities (plugin-API coordinates, `vector3i_t`) are
embedded as `Int`; `uint8_t` counters (`player->blocks`, `hp`) as `Nat`,
with the code's own guards (`blocks > 0`, `blocks < 50`, `hp > 100`) keeping
them inside the byte range along every path the theorems traverse.
-/

namespace SpadesX

/-! ### Constants from PluginAPI.h and Util/Enums.h -/

/-- Tool ids from `PluginAPI.h` (`TOOL_SPADE` = 0, `TOOL_GUN` = 2). -/
def TOOL_SPADE : Nat := 0

def TOOL_BLOCK : Nat := 1

def TOOL_GUN : Nat := 2

/-- Result codes from `plugin_result_t` in `PluginAPI.h`. -/
def PLUGIN_OK : Int := 0

def PLUGIN_ALLOW : Int := 1

def PLUGIN_DENY : Int := 2

def PLUGIN_ERROR_NULL_POINTER : Int := -3

def PLUGIN_ERROR_INVALID_HP : Int := -104

def PLUGIN_ERROR_MAP_OUT_OF_BOUNDS : Int := -200

/-- Host ABI version, `SPADESX_PLUGIN_API_VERSION` in `PluginAPI.h`. -/
def SPADESX_PLUGIN_API_VERSION : Nat := 1

/-- Modelled from the spec: the block-action packet kinds (`BLOCKACTION_BUILD`,
`BLOCKACTION_DESTROY_ONE`, `BLOCKACTION_DESTROY_THREE`); `Util/Enums.h` is not
under src/, the numbering follows the Ace of Spades wire protocol the spec's
edit kinds refer to. -/
def BLOCKACTION_BUILD : Nat := 0

def BLOCKACTION_DESTROY_ONE : Nat := 1

def BLOCKACTION_DESTROY_THREE : Nat := 2

/-- Reduction modulo `2 ^ 32`, the value of a C `uint32_t` expression. -/
def u32 (n : Nat) : Nat := n % 2 ^ 32

/-! ### The voxel store -/

/-- Integer position, the C `vector3i_t` (fields are C `int`). -/
structure Vector3i where
  x : Int
  y : Int
  z : Int
deriving DecidableEq, Repr

/-- One cell of the terrain: air, or solid carrying a 32-bit color. -/
inductive Cell where
  | air : Cell
  | solid : Nat → Cell
deriving DecidableEq, Repr

/-- The terrain volume as a total assignment of cells to integer positions. -/
def VoxelMap := Vector3i → Cell

/-- Modelled from the spec: `set_solid(pos, color)` of the Voxel Store contract
(spec section 4.1); the backing `mapvxl` implementation is an external library. -/
def mapvxl_set_color (m : VoxelMap) (x y z : Int) (c : Nat) : VoxelMap :=
  fun p => if p = ⟨x, y, z⟩ then Cell.solid c else m p

/-- Modelled from the spec: `set_air(pos)` of the Voxel Store contract
(spec section 4.1); the backing `mapvxl` implementation is an external library. -/
def mapvxl_set_air (m : VoxelMap) (x y z : Int) : VoxelMap :=
  fun p => if p = ⟨x, y, z⟩ then Cell.air else m p

/-- Modelled from the spec: `get(pos)` read back as a raw color, 0 for air
(spec section 4.1); the backing `mapvxl` implementation is an external library. -/
def mapvxl_get_color (m : VoxelMap) (x y z : Int) : Nat :=
  match m ⟨x, y, z⟩ with
  | Cell.air => 0
  | Cell.solid c => c

/-- Map bounds test used verbatim by the plugin API (`api_map_set_block`,
`api_map_remove_block`, `api_map_is_valid_pos` in Plugin.c): the 512 x 512 x 64
volume. -/
def in_map_bounds (x y z : Int) : Bool :=
  decide (0 ≤ x) && decide (x < 512) && decide (0 ≤ y) && decide (y < 512) &&
    decide (0 ≤ z) && decide (z < 64)

/-- Modelled from the spec: `valid_pos_v3i` (Util/Checks/PositionChecks, not
under src/) — a position is valid iff all three components lie within volume
bounds (spec section 3); the bounds are those of `api_map_is_valid_pos` in
Plugin.c. -/
def valid_pos_v3i (p : Vector3i) : Bool :=
  in_map_bounds p.x p.y p.z

/-! ### Players, blocks, broadcasts -/

/-- The per-player fields the block/plugin code reads and writes:
`player->item` (selected tool), `player->blocks` (build-resource counter,
a `uint8_t`), `player->tool_color`, `player->hp`, `player->alive`. -/
structure Player where
  item : Nat
  blocks : Nat
  tool_color : Nat
  hp : Nat
  alive : Nat
deriving DecidableEq, Repr

/-- The `block_t` payload handed to plugin hooks (`PluginAPI.h`). -/
structure Block where
  x : Int
  y : Int
  z : Int
  color : Nat
deriving DecidableEq, Repr

/-- One `send_block_action(server, player, action_type, X, Y, Z)` broadcast. -/
structure Broadcast where
  action_type : Nat
  x : Nat
  y : Nat
  z : Nat
deriving DecidableEq, Repr

/-! ### The plugin chain (Plugin.c) -/

/-- A loaded plugin: its name and the two vetoable-event hooks the block code
dispatches to. A block-destroy hook receives the player, the tool and the
`block_t` copy and answers a result code; a block-place hook may additionally
rewrite the block (the C hook mutates the `block_t` through its pointer), so it
returns the result code together with the block it leaves behind. The
remaining hooks of `plugin_t` (server init/shutdown, tick, connect, ...) play
no part in the claims and are omitted. Destroy hooks in C may also scribble on
their `block_t` copy, but `block_action_destroy_one` / `_three` never read the
copy back, so the destroy hook is embedded by its result alone. -/
structure Plugin where
  name : String
  on_block_destroy : Option (Player → Nat → Block → Int)
  on_block_place : Option (Player → Block → Int × Block)

/-- Plugin registration (`plugin_load`, Plugin.c lines 363-365):
`plugin->next = g_plugins; g_plugins = plugin;` — the chain is
most-recently-loaded first. -/
def plugin_register (chain : List Plugin) (p : Plugin) : List Plugin :=
  p :: chain

/-- The descriptor every plugin exports (`plugin_info_t` in PluginAPI.h). -/
structure PluginInfo where
  name : String
  version : String
  author : String
  description : String
  api_version : Nat

/-- Outcome of `plugin_load`: the new chain, the C return value, and whether
the dynamic-library handle was released (`DLCLOSE`) on the way out. -/
structure LoadOutcome where
  chain : List Plugin
  ret : Int
  handle_released : Bool

/-- The decision structure of `plugin_load` (Plugin.c lines 272-369): a missing
`spadesx_plugin_info` export fails; a descriptor whose `api_version` differs
from `SPADESX_PLUGIN_API_VERSION` fails (lines 292-297) with the handle
closed; a missing `spadesx_plugin_init` export fails; a nonzero init result
fails; otherwise the module is prepended to the global chain and 0 is
returned. `info` is `none` when the info export is absent, `has_init` whether
the init export resolved, `init_result` what the module's init returned. -/
def plugin_load (chain : List Plugin) (info : Option PluginInfo) (has_init : Bool)
    (hooks : Plugin) (init_result : Int) : LoadOutcome :=
  match info with
  | none => ⟨chain, -1, true⟩
  | some i =>
    if i.api_version ≠ SPADESX_PLUGIN_API_VERSION then ⟨chain, -1, true⟩
    else if !has_init then ⟨chain, -1, true⟩
    else if init_result ≠ 0 then ⟨chain, -1, true⟩
    else ⟨plugin_register chain hooks, 0, false⟩

/-- `plugin_dispatch_block_destroy` (Plugin.c lines 433-443): walk the chain
from its head, skip plugins without the hook, and return `PLUGIN_DENY` as soon
as one hook denies; `PLUGIN_ALLOW` if none does. -/
def plugin_dispatch_block_destroy (pl : Player) (tool : Nat) (b : Block) :
    List Plugin → Int
  | [] => PLUGIN_ALLOW
  | p :: ps =>
    match p.on_block_destroy with
    | none => plugin_dispatch_block_destroy pl tool b ps
    | some h =>
      if h pl tool b = PLUGIN_DENY then PLUGIN_DENY
      else plugin_dispatch_block_destroy pl tool b ps

/-- The same walk as `plugin_dispatch_block_destroy`, additionally recording
the names of the plugins whose hook was invoked, in invocation order. -/
def plugin_dispatch_block_destroy_invoked (pl : Player) (tool : Nat) (b : Block) :
    List Plugin → List String × Int
  | [] => ([], PLUGIN_ALLOW)
  | p :: ps =>
    match p.on_block_destroy with
    | none => plugin_dispatch_block_destroy_invoked pl tool b ps
    | some h =>
      if h pl tool b = PLUGIN_DENY then ([p.name], PLUGIN_DENY)
      else
        let rest := plugin_dispatch_block_destroy_invoked pl tool b ps
        (p.name :: rest.1, rest.2)

/-- `plugin_dispatch_block_place` (Plugin.c lines 445-455): walk the chain from
its head threading the mutable `block_t` through the hooks; the first hook
answering `PLUGIN_DENY` stops the walk. -/
def plugin_dispatch_block_place (pl : Player) : List Plugin → Block → Int × Block
  | [], b => (PLUGIN_ALLOW, b)
  | p :: ps, b =>
    match p.on_block_place with
    | none => plugin_dispatch_block_place pl ps b
    | some h =>
      let rb := h pl b
      if rb.1 = PLUGIN_DENY then (PLUGIN_DENY, rb.2)
      else plugin_dispatch_block_place pl ps rb.2

/-! ### The validator's external collaborators -/

/-- Modelled from the spec: the validator's external collaborators, which live
outside src/ and are embedded as oracles fixed for the call under scrutiny —
`gamemode_block_checks` (the gamemode's `area_permits_edit`, spec section 6),
`block_action_delay_check` (per-action-kind rate limit; its second argument is
the C call's final flag, 1 for build/destroy-three and 0 for destroy-one),
`is_block_placable` (target air and not a reserved object),
`block_action_weapon_checks` (the `ranged_destroy_allowed` collaborator), and
`check_node` (the structural-integrity probe seeded at one position,
`Server/Nodes.c`; per spec section 4.2 it only ever vacates cells, never
bedrock). -/
structure Checks where
  gamemode_block_checks : Nat → Nat → Nat → Bool
  block_action_delay_check : Nat → Nat → Bool
  is_block_placable : Vector3i → Bool
  block_action_weapon_checks : Bool
  check_node : VoxelMap → Vector3i → VoxelMap

/-- Modelled from the spec: the 6-connected neighbours (plus and minus one
step along each axis) of a cell, spec section 4.2; `get_neighbours` itself is
outside src/. -/
def get_neighbours (p : Vector3i) : List Vector3i :=
  [⟨p.x + 1, p.y, p.z⟩, ⟨p.x - 1, p.y, p.z⟩, ⟨p.x, p.y + 1, p.z⟩,
   ⟨p.x, p.y - 1, p.z⟩, ⟨p.x, p.y, p.z + 1⟩, ⟨p.x, p.y, p.z - 1⟩]

/-- The cascade seeding loop shared by both destroy handlers (Block.c lines
64-68 and 103-107): run `check_node` on each of the six neighbours whose `z`
is below 62. -/
def cascade_neighbours (ck : Checks) (m : VoxelMap) (p : Vector3i) : VoxelMap :=
  (get_neighbours p).foldl (fun acc n => if n.z < 62 then ck.check_node acc n else acc) m

/-! ### The block-action handlers (Block.c) -/

/-- Server-side state a block action touches: the terrain, the acting player's
record, and the block-action broadcasts emitted so far (`send_block_action`
appends to it; transport delivery is outside the core). -/
structure BState where
  map : VoxelMap
  player : Player
  sent : List Broadcast

/-- The validation conjunction of `block_action_build` (Block.c lines 23-27). -/
def build_checks (ck : Checks) (pl : Player) (action_type X Y Z : Nat) : Bool :=
  ck.gamemode_block_checks X Y Z && decide (0 < pl.blocks) &&
    ck.block_action_delay_check action_type 1 &&
    ck.is_block_placable ⟨(X : Int), (Y : Int), (Z : Int)⟩

/-- The validation conjunction of `block_action_destroy_one` (Block.c lines
46-51): `Z < 62`, the gamemode check, and either spade with its delay check or
gun with the weapon checks. -/
def destroy_one_checks (ck : Checks) (pl : Player) (action_type X Y Z : Nat) : Bool :=
  (decide (Z < 62) && ck.gamemode_block_checks X Y Z) &&
    ((decide (pl.item = TOOL_SPADE) && ck.block_action_delay_check action_type 0) ||
     (decide (pl.item = TOOL_GUN) && ck.block_action_weapon_checks))

/-- The validation conjunction of `block_action_destroy_three` (Block.c lines
81-82) before its gun-tool exclusion: gamemode checks at `Z`, `Z + 1` and
`Z - 1` (both computed in `uint32_t`) and the delay check. -/
def destroy_three_checks (ck : Checks) (action_type X Y Z : Nat) : Bool :=
  ck.gamemode_block_checks X Y Z && ck.gamemode_block_checks X Y (u32 (Z + 1)) &&
    ck.gamemode_block_checks X Y (u32 (Z + 2 ^ 32 - 1)) &&
    ck.block_action_delay_check action_type 1

/-- `block_action_build` (Block.c lines 18-40): validate, consult the
block-place plugin chain (which may rewrite the color), then commit — set the
cell solid with the possibly rewritten color, decrement `player->blocks`, and
broadcast. (`moveIntelAndTentUp` adjusts objective markers outside this
state.) Any failed check or a plugin deny returns with the state untouched. -/
def block_action_build (ck : Checks) (chain : List Plugin) (s : BState)
    (action_type X Y Z : Nat) : BState :=
  if !build_checks ck s.player action_type X Y Z then s
  else
    let rb := plugin_dispatch_block_place s.player chain
      ⟨(X : Int), (Y : Int), (Z : Int), s.player.tool_color⟩
    if rb.1 = PLUGIN_DENY then s
    else
      { map := mapvxl_set_color s.map X Y Z rb.2.color
        player := { s.player with blocks := s.player.blocks - 1 }
        sent := s.sent ++ [⟨action_type, X, Y, Z⟩] }

/-- `block_action_destroy_one` (Block.c lines 42-75): validate, consult the
block-destroy plugin chain, then vacate the target, seed the structural
cascade at each neighbour below `z = 62`, replenish one block (capped at 50)
unless the tool is the gun, and broadcast. Any failed check or a plugin deny
returns with the state untouched. -/
def block_action_destroy_one (ck : Checks) (chain : List Plugin) (s : BState)
    (action_type X Y Z : Nat) : BState :=
  if !destroy_one_checks ck s.player action_type X Y Z then s
  else
    let b : Block := ⟨(X : Int), (Y : Int), (Z : Int), mapvxl_get_color s.map X Y Z⟩
    if plugin_dispatch_block_destroy s.player s.player.item b chain = PLUGIN_DENY then s
    else
      let pos : Vector3i := ⟨(X : Int), (Y : Int), (Z : Int)⟩
      let m2 := cascade_neighbours ck (mapvxl_set_air s.map pos.x pos.y pos.z) pos
      let pl :=
        if s.player.item ≠ TOOL_GUN then
          if s.player.blocks < 50 then { s.player with blocks := s.player.blocks + 1 }
          else s.player
        else s.player
      { map := m2, player := pl, sent := s.sent ++ [⟨action_type, X, Y, Z⟩] }

/-- The `z` values the destroy-three loop visits (Block.c line 95):
`for (uint32_t z = Z - 1; z <= Z + 1; z++)` with both bounds computed in
`uint32_t`. When `Z = 0` the start value wraps to `2 ^ 32 - 1`, which already
exceeds `Z + 1 = 1`, so the loop body never runs. (The C loop would cycle
forever when `Z + 1` wraps to `2 ^ 32 - 1`, i.e. at `Z = 2 ^ 32 - 2`, far
outside the 0..63 range a validated position allows.) -/
def destroy_three_zs (Z : Nat) : List Nat :=
  let zstart := u32 (Z + 2 ^ 32 - 1)
  let zstop := u32 (Z + 1)
  if zstart ≤ zstop then List.range' zstart (zstop - zstart + 1) else []

/-- One iteration of the destroy-three loop (Block.c lines 95-108): cells at or
beyond `z = 62` are skipped (`continue`); otherwise the cell is set to air (the
source does so twice, lines 99 and 102) and the cascade is seeded at its
neighbours below 62. -/
def destroy_three_step (ck : Checks) (X Y : Nat) (acc : VoxelMap) (z : Nat) : VoxelMap :=
  if 62 ≤ z then acc
  else
    let pos : Vector3i := ⟨(X : Int), (Y : Int), (z : Int)⟩
    cascade_neighbours ck
      (mapvxl_set_air (mapvxl_set_air acc X Y z) pos.x pos.y pos.z) pos

/-- `block_action_destroy_three` (Block.c lines 77-110): validate (including
the gun-tool exclusion), consult the block-destroy plugin chain on the middle
block, then run the column loop; finally broadcast. The broadcast is sent
whenever the checks and the plugins allowed, even if the loop vacated
nothing. -/
def block_action_destroy_three (ck : Checks) (chain : List Plugin) (s : BState)
    (action_type X Y Z : Nat) : BState :=
  if !destroy_three_checks ck action_type X Y Z || decide (s.player.item = TOOL_GUN) then s
  else
    let b : Block := ⟨(X : Int), (Y : Int), (Z : Int), mapvxl_get_color s.map X Y Z⟩
    if plugin_dispatch_block_destroy s.player s.player.item b chain = PLUGIN_DENY then s
    else
      { map := (destroy_three_zs Z).foldl (destroy_three_step ck X Y) s.map
        player := s.player, sent := s.sent ++ [⟨action_type, X, Y, Z⟩] }

/-- `handle_block_action` (Block.c lines 112-143): reject when the actor is
farther than 4 units from the target in continuous space while not holding the
gun, or when the target position is out of bounds; otherwise switch on the
action kind. `dist` stands for the computed `distance_in_3d(vectorf_block,
player_vector)` value. -/
def handle_block_action (ck : Checks) (chain : List Plugin) (s : BState)
    (action_type : Nat) (dist : Rat) (vector_block : Vector3i) (X Y Z : Nat) : BState :=
  if (decide (4 < dist) && decide (s.player.item ≠ TOOL_GUN)) || !valid_pos_v3i vector_block then s
  else if action_type = BLOCKACTION_BUILD then
    block_action_build ck chain s action_type X Y Z
  else if action_type = BLOCKACTION_DESTROY_ONE then
    block_action_destroy_one ck chain s action_type X Y Z
  else if action_type = BLOCKACTION_DESTROY_THREE then
    block_action_destroy_three ck chain s action_type X Y Z
  else s

/-! ### The plugin capability surface over the whole server (Plugin.c) -/

/-- One node of a player's deferred block buffer (`block_node_t`): the fields
`api_map_set_block` / `api_map_remove_block` fill in before `LL_APPEND`ing it. -/
structure BlockNode where
  x : Int
  y : Int
  z : Int
  color : Nat
  type : Nat
  sender_id : Nat
deriving DecidableEq, Repr

/-- One connected peer as the capability functions see it:
`is_past_state_data(p)` (the peer finished terrain transfer and receives
updates immediately), the loading flag (`p->state == STATE_STARTING_MAP ||
p->state == STATE_LOADING_CHUNKS`), the private `p->blockBuffer` of deferred
actions, and — standing in for the wire — the ordered list of block-action
packets delivered to the peer so far. -/
structure Peer where
  past_state_data : Bool
  loading : Bool
  blockBuffer : List BlockNode
  received : List BlockNode
deriving Repr

/-- The server state the map capability functions touch. -/
structure SrvState where
  map : VoxelMap
  peers : List Peer

/-- The per-peer fan-out both map capability functions perform inside
`HASH_ITER` (Plugin.c lines 742-757 and 795-810): a peer past state data is
sent the action immediately; a peer still loading gets it `LL_APPEND`ed (tail
append, FIFO) to its private block buffer; every other peer is skipped. (The C
code skips packet allocation when no player is connected and frees the packet
when no send succeeded; iterating an empty peer list is the same no-op, and
per spec section 5 send is fire-and-forget.) -/
def fanout_peer (node : BlockNode) (p : Peer) : Peer :=
  if p.past_state_data then { p with received := p.received ++ [node] }
  else if p.loading then { p with blockBuffer := p.blockBuffer ++ [node] }
  else p

/-- `api_map_set_block` (Plugin.c lines 713-765): bounds-check, set the cell
solid, then fan the update out to every peer. Sender id 33 is the reserved
server id. -/
def api_map_set_block (s : SrvState) (x y z : Int) (color : Nat) : SrvState × Int :=
  if !in_map_bounds x y z then (s, PLUGIN_ERROR_MAP_OUT_OF_BOUNDS)
  else
    ({ map := mapvxl_set_color s.map x y z color
       peers := s.peers.map (fanout_peer ⟨x, y, z, color, BLOCKACTION_BUILD, 33⟩) }, PLUGIN_OK)

/-- `api_map_remove_block` (Plugin.c lines 767-818): bounds-check, set the cell
to air, then fan the destroy action out exactly as `api_map_set_block` does
(the buffered node carries color 0 and the destroy-one type). No bedrock test
appears anywhere on this path: every in-bounds `z`, 62 and 63 included, is
vacated. -/
def api_map_remove_block (s : SrvState) (x y z : Int) : SrvState × Int :=
  if !in_map_bounds x y z then (s, PLUGIN_ERROR_MAP_OUT_OF_BOUNDS)
  else
    ({ map := mapvxl_set_air s.map x y z
       peers := s.peers.map (fanout_peer ⟨x, y, z, 0, BLOCKACTION_DESTROY_ONE, 33⟩) }, PLUGIN_OK)

/-- One terrain mutation issued through the plugin capability table. -/
inductive PluginEdit where
  | setBlock (x y z : Int) (color : Nat) : PluginEdit
  | removeBlock (x y z : Int) : PluginEdit
deriving DecidableEq, Repr

/-- Commit one capability edit (dropping the result code). -/
def apply_plugin_edit (s : SrvState) : PluginEdit → SrvState
  | .setBlock x y z c => (api_map_set_block s x y z c).1
  | .removeBlock x y z => (api_map_remove_block s x y z).1

/-- Commit a sequence of capability edits in order. -/
def run_plugin_edits (s : SrvState) (es : List PluginEdit) : SrvState :=
  es.foldl apply_plugin_edit s

/-- Whether a capability edit passes the bounds check. -/
def edit_in_bounds : PluginEdit → Bool
  | .setBlock x y z _ => in_map_bounds x y z
  | .removeBlock x y z => in_map_bounds x y z

/-- The block node a capability edit fans out to the peers. -/
def edit_node : PluginEdit → BlockNode
  | .setBlock x y z c => ⟨x, y, z, c, BLOCKACTION_BUILD, 33⟩
  | .removeBlock x y z => ⟨x, y, z, 0, BLOCKACTION_DESTROY_ONE, 33⟩

/-- Modelled from the spec: applying one buffered or received block action to
an observer's local terrain copy — a build node sets the cell solid with the
node's color, a destroy node sets it to air. The replay loop that drains
`p->blockBuffer` after map transfer lives outside src/ (spec section 4.5). -/
def apply_block_node (m : VoxelMap) (n : BlockNode) : VoxelMap :=
  if n.type = BLOCKACTION_BUILD then mapvxl_set_color m n.x n.y n.z n.color
  else mapvxl_set_air m n.x n.y n.z

/-- Modelled from the spec: replaying a whole buffer in order on an observer's
local terrain copy (spec section 4.5). -/
def replay_buffer (m : VoxelMap) (ns : List BlockNode) : VoxelMap :=
  ns.foldl apply_block_node m

/-- `api_player_set_hp` (Plugin.c lines 647-662): `NULL` player yields the
null-pointer error; `hp > 100` yields the invalid-hp error with the player
untouched; otherwise the hp is stored, the player is additionally marked not
alive when the new hp is 0, and `PLUGIN_OK` is returned. The embedding
returns the player record alongside the code. -/
def api_player_set_hp : Option Player → Nat → Int × Option Player
  | none, _ => (PLUGIN_ERROR_NULL_POINTER, none)
  | some pl, hp =>
    if 100 < hp then (PLUGIN_ERROR_INVALID_HP, some pl)
    else (PLUGIN_OK, some { pl with hp := hp, alive := if hp = 0 then 0 else pl.alive })

/-- One inbound edit request as `handle_block_action` receives it. -/
structure EditRequest where
  action_type : Nat
  dist : Rat
  vector_block : Vector3i
  X : Nat
  Y : Nat
  Z : Nat

/-- A sequence of edit requests processed one after the other on the single
simulation timeline (spec section 5). -/
def run_block_actions (ck : Checks) (chain : List Plugin) : BState → List EditRequest → BState
  | s, [] => s
  | s, r :: rs =>
    run_block_actions ck chain
      (handle_block_action ck chain s r.action_type r.dist r.vector_block r.X r.Y r.Z) rs

/-! ### Concrete fixtures for witnesses and counterexamples -/

/-- A permissive oracle bundle: every external check passes and the
structural-integrity probe finds nothing to collapse. -/
def ckTrue : Checks :=
  { gamemode_block_checks := fun _ _ _ => true
    block_action_delay_check := fun _ _ => true
    is_block_placable := fun _ => true
    block_action_weapon_checks := true
    check_node := fun m _ => m }

/-- A terrain that is solid (color 7) everywhere. -/
def allSolid7 : VoxelMap := fun _ => Cell.solid 7

/-- A terrain that is air everywhere. -/
def airAll : VoxelMap := fun _ => Cell.air

/-- A player holding the spade with a full resource counter. -/
def spadePlayer : Player :=
  { item := TOOL_SPADE, blocks := 50, tool_color := 3, hp := 100, alive := 1 }

/-- A player holding the gun with a full resource counter. -/
def gunPlayer : Player :=
  { item := TOOL_GUN, blocks := 50, tool_color := 3, hp := 100, alive := 1 }

/-- A sample block payload. -/
def someBlock : Block := ⟨5, 5, 30, 7⟩

/-- A block-destroy hook that denies every event. -/
def fDeny : Player → Nat → Block → Int := fun _ _ _ => PLUGIN_DENY

/-- A block-destroy hook that allows every event. -/
def fAllow : Player → Nat → Block → Int := fun _ _ _ => PLUGIN_ALLOW

/-- Module A: its block-destroy hook denies. -/
def pluginA : Plugin := ⟨"A", some fDeny, none⟩

/-- Module B: its block-destroy hook allows. -/
def pluginB : Plugin := ⟨"B", some fAllow, none⟩

/-- The chain after loading A first and B second. -/
def chainAB : List Plugin := plugin_register (plugin_register [] pluginA) pluginB

/-- A server whose terrain is solid everywhere and with no connected peer. -/
def srvAllSolid : SrvState := ⟨allSolid7, []⟩

/-- A descriptor declaring ABI version 2 against the host's version 1. -/
def badInfo : PluginInfo := ⟨"C", "1.0", "someone", "mismatched", 2⟩

/-- Module C: an allowing block-destroy hook, used as the hook table of a
module whose load is refused. -/
def pluginC : Plugin := ⟨"C", some fAllow, none⟩

/-- A peer still mid terrain transfer. -/
def loadingPeer : Peer := ⟨false, true, [], []⟩

/-- A peer that completed terrain transfer. -/
def syncedPeer : Peer := ⟨true, false, [], []⟩

/-- A server with one loading peer and one synchronized peer. -/
def srvTwoPeers : SrvState := ⟨allSolid7, [loadingPeer, syncedPeer]⟩

/-- A sample in-bounds capability edit sequence. -/
def sampleEdits : List PluginEdit :=
  [PluginEdit.setBlock 1 2 3 9, PluginEdit.removeBlock 4 5 6, PluginEdit.setBlock 1 2 3 11]

/-! ### Helper lemmas -/

theorem sent_append_ne (l : List Broadcast) (b : Broadcast) : l ++ [b] ≠ l := by
  intro h
  have := congrArg List.length h
  simp at this

theorem build_noop_of_checks_false (ck : Checks) (chain : List Plugin) (s : BState)
    (t X Y Z : Nat) (h : build_checks ck s.player t X Y Z = false) :
    block_action_build ck chain s t X Y Z = s := by
  simp [block_action_build, h]

theorem build_noop_of_place_deny (ck : Checks) (chain : List Plugin) (s : BState)
    (t X Y Z : Nat)
    (h : (plugin_dispatch_block_place s.player chain
      ⟨(X : Int), (Y : Int), (Z : Int), s.player.tool_color⟩).1 = PLUGIN_DENY) :
    block_action_build ck chain s t X Y Z = s := by
  cases hc : build_checks ck s.player t X Y Z with
  | false => simp [block_action_build, hc]
  | true => simp [block_action_build, hc, h]

theorem destroy_one_noop_of_checks_false (ck : Checks) (chain : List Plugin) (s : BState)
    (t X Y Z : Nat) (h : destroy_one_checks ck s.player t X Y Z = false) :
    block_action_destroy_one ck chain s t X Y Z = s := by
  simp [block_action_destroy_one, h]

theorem destroy_one_noop_of_deny (ck : Checks) (chain : List Plugin) (s : BState)
    (t X Y Z : Nat)
    (h : plugin_dispatch_block_destroy s.player s.player.item
      ⟨(X : Int), (Y : Int), (Z : Int), mapvxl_get_color s.map X Y Z⟩ chain = PLUGIN_DENY) :
    block_action_destroy_one ck chain s t X Y Z = s := by
  cases hc : destroy_one_checks ck s.player t X Y Z with
  | false => simp [block_action_destroy_one, hc]
  | true => simp [block_action_destroy_one, hc, h]

theorem destroy_three_noop_of_checks_false (ck : Checks) (chain : List Plugin) (s : BState)
    (t X Y Z : Nat) (h : destroy_three_checks ck t X Y Z = false) :
    block_action_destroy_three ck chain s t X Y Z = s := by
  simp [block_action_destroy_three, h]

theorem destroy_three_noop_of_gun (ck : Checks) (chain : List Plugin) (s : BState)
    (t X Y Z : Nat) (h : s.player.item = TOOL_GUN) :
    block_action_destroy_three ck chain s t X Y Z = s := by
  simp [block_action_destroy_three, h]

theorem destroy_three_noop_of_deny (ck : Checks) (chain : List Plugin) (s : BState)
    (t X Y Z : Nat)
    (h : plugin_dispatch_block_destroy s.player s.player.item
      ⟨(X : Int), (Y : Int), (Z : Int), mapvxl_get_color s.map X Y Z⟩ chain = PLUGIN_DENY) :
    block_action_destroy_three ck chain s t X Y Z = s := by
  cases hc : (!destroy_three_checks ck t X Y Z || decide (s.player.item = TOOL_GUN)) with
  | true => simp [block_action_destroy_three, hc]
  | false => simp [block_action_destroy_three, hc, h]

theorem foldl_check_node_preserve (ck : Checks)
    (hcn : ∀ m n q, 62 ≤ q.z → ck.check_node m n q = m q)
    (q : Vector3i) (hq : 62 ≤ q.z) :
    ∀ (ns : List Vector3i) (m : VoxelMap),
      ns.foldl (fun acc n => if n.z < 62 then ck.check_node acc n else acc) m q = m q := by
  intro ns
  induction ns with
  | nil => intro m; rfl
  | cons n ns ih =>
    intro m
    rw [List.foldl_cons, ih]
    by_cases h : n.z < 62
    · rw [if_pos h, hcn _ _ _ hq]
    · rw [if_neg h]

theorem cascade_neighbours_preserve (ck : Checks)
    (hcn : ∀ m n q, 62 ≤ q.z → ck.check_node m n q = m q)
    (q : Vector3i) (hq : 62 ≤ q.z) (m : VoxelMap) (p : Vector3i) :
    cascade_neighbours ck m p q = m q :=
  foldl_check_node_preserve ck hcn q hq (get_neighbours p) m

theorem mapvxl_set_air_ne (m : VoxelMap) (x y z : Int) (q : Vector3i)
    (h : q ≠ ⟨x, y, z⟩) : mapvxl_set_air m x y z q = m q := by
  simp [mapvxl_set_air, h]

theorem mapvxl_set_color_not_air (m : VoxelMap) (x y z : Int) (c : Nat) (q : Vector3i)
    (h : m q ≠ Cell.air) : mapvxl_set_color m x y z c q ≠ Cell.air := by
  unfold mapvxl_set_color
  by_cases hq : q = (⟨x, y, z⟩ : Vector3i)
  · simp [hq]
  · simp [hq, h]

theorem destroy_one_checks_z_lt (ck : Checks) (pl : Player) (t X Y Z : Nat)
    (h : destroy_one_checks ck pl t X Y Z = true) : Z < 62 := by
  unfold destroy_one_checks at h
  simp only [Bool.and_eq_true, decide_eq_true_eq] at h
  exact h.1.1

theorem build_keeps_solid (ck : Checks) (chain : List Plugin) (s : BState)
    (t X Y Z : Nat) (q : Vector3i) (hs : s.map q ≠ Cell.air) :
    (block_action_build ck chain s t X Y Z).map q ≠ Cell.air := by
  cases hc : build_checks ck s.player t X Y Z with
  | false => simpa [block_action_build, hc] using hs
  | true =>
    by_cases hd : (plugin_dispatch_block_place s.player chain
        ⟨(X : Int), (Y : Int), (Z : Int), s.player.tool_color⟩).1 = PLUGIN_DENY
    · simpa [block_action_build, hc, hd] using hs
    · simp only [block_action_build, hc, Bool.not_true, Bool.false_eq_true, if_false, if_neg hd]
      exact mapvxl_set_color_not_air s.map _ _ _ _ q hs

theorem destroy_one_keeps_solid (ck : Checks) (chain : List Plugin)
    (hcn : ∀ m n q, 62 ≤ q.z → ck.check_node m n q = m q)
    (q : Vector3i) (hq : 62 ≤ q.z) (s : BState) (hs : s.map q ≠ Cell.air)
    (t X Y Z : Nat) :
    (block_action_destroy_one ck chain s t X Y Z).map q ≠ Cell.air := by
  cases hc : destroy_one_checks ck s.player t X Y Z with
  | false => simpa [block_action_destroy_one, hc] using hs
  | true =>
    by_cases hd : plugin_dispatch_block_destroy s.player s.player.item
        ⟨(X : Int), (Y : Int), (Z : Int), mapvxl_get_color s.map X Y Z⟩ chain = PLUGIN_DENY
    · simpa [block_action_destroy_one, hc, hd] using hs
    · have hz := destroy_one_checks_z_lt ck s.player t X Y Z hc
      have hne : q ≠ (⟨(X : Int), (Y : Int), (Z : Int)⟩ : Vector3i) := by
        intro h
        rw [h] at hq
        simp only [] at hq
        omega
      simp only [block_action_destroy_one, hc, Bool.not_true, Bool.false_eq_true, if_false,
        if_neg hd]
      rw [cascade_neighbours_preserve ck hcn q hq, mapvxl_set_air_ne _ _ _ _ _ hne]
      exact hs

theorem foldl_destroy_three_step_preserve (ck : Checks)
    (hcn : ∀ m n q, 62 ≤ q.z → ck.check_node m n q = m q)
    (q : Vector3i) (hq : 62 ≤ q.z) (X Y : Nat) :
    ∀ (zs : List Nat) (m : VoxelMap), zs.foldl (destroy_three_step ck X Y) m q = m q := by
  intro zs
  induction zs with
  | nil => intro m; rfl
  | cons z zs ih =>
    intro m
    rw [List.foldl_cons, ih]
    by_cases h : 62 ≤ z
    · simp [destroy_three_step, h]
    · have hne : q ≠ (⟨(X : Int), (Y : Int), (z : Int)⟩ : Vector3i) := by
        intro hh
        rw [hh] at hq
        simp only [] at hq
        omega
      simp only [destroy_three_step, if_neg h]
      rw [cascade_neighbours_preserve ck hcn q hq, mapvxl_set_air_ne _ _ _ _ _ hne,
        mapvxl_set_air_ne _ _ _ _ _ hne]

theorem destroy_three_keeps_solid (ck : Checks) (chain : List Plugin)
    (hcn : ∀ m n q, 62 ≤ q.z → ck.check_node m n q = m q)
    (q : Vector3i) (hq : 62 ≤ q.z) (s : BState) (hs : s.map q ≠ Cell.air)
    (t X Y Z : Nat) :
    (block_action_destroy_three ck chain s t X Y Z).map q ≠ Cell.air := by
  cases hc : (!destroy_three_checks ck t X Y Z || decide (s.player.item = TOOL_GUN)) with
  | true => simpa [block_action_destroy_three, hc] using hs
  | false =>
    by_cases hd : plugin_dispatch_block_destroy s.player s.player.item
        ⟨(X : Int), (Y : Int), (Z : Int), mapvxl_get_color s.map X Y Z⟩ chain = PLUGIN_DENY
    · simpa [block_action_destroy_three, hc, hd] using hs
    · simp only [block_action_destroy_three, hc, Bool.false_eq_true, if_false, if_neg hd]
      rw [foldl_destroy_three_step_preserve ck hcn q hq X Y (destroy_three_zs Z) s.map]
      exact hs

theorem handle_keeps_solid (ck : Checks) (chain : List Plugin)
    (hcn : ∀ m n q, 62 ≤ q.z → ck.check_node m n q = m q)
    (q : Vector3i) (hq : 62 ≤ q.z) (s : BState) (hs : s.map q ≠ Cell.air)
    (t : Nat) (dist : Rat) (vb : Vector3i) (X Y Z : Nat) :
    (handle_block_action ck chain s t dist vb X Y Z).map q ≠ Cell.air := by
  unfold handle_block_action
  split_ifs with h1 h2 h3 h4
  · exact hs
  · exact build_keeps_solid ck chain s t X Y Z q hs
  · exact destroy_one_keeps_solid ck chain hcn q hq s hs t X Y Z
  · exact destroy_three_keeps_solid ck chain hcn q hq s hs t X Y Z
  · exact hs

theorem fanout_peer_loading (n : BlockNode) (p : Peer)
    (h1 : p.past_state_data = false) (h2 : p.loading = true) :
    fanout_peer n p = { p with blockBuffer := p.blockBuffer ++ [n] } := by
  simp [fanout_peer, h1, h2]

theorem fanout_peer_past (n : BlockNode) (p : Peer) (h1 : p.past_state_data = true) :
    fanout_peer n p = { p with received := p.received ++ [n] } := by
  simp [fanout_peer, h1]

theorem apply_edit_components (s : SrvState) (e : PluginEdit)
    (hb : edit_in_bounds e = true) :
    (apply_plugin_edit s e).map = apply_block_node s.map (edit_node e) ∧
    (apply_plugin_edit s e).peers = s.peers.map (fanout_peer (edit_node e)) := by
  cases e with
  | setBlock x y z c =>
    simp only [edit_in_bounds] at hb
    constructor
    · simp [apply_plugin_edit, api_map_set_block, hb, apply_block_node, edit_node,
        BLOCKACTION_BUILD]
    · simp [apply_plugin_edit, api_map_set_block, hb, edit_node]
  | removeBlock x y z =>
    simp only [edit_in_bounds] at hb
    constructor
    · simp [apply_plugin_edit, api_map_remove_block, hb, apply_block_node, edit_node,
        BLOCKACTION_DESTROY_ONE, BLOCKACTION_BUILD]
    · simp [apply_plugin_edit, api_map_remove_block, hb, edit_node]

theorem run_edits_loading_buffer :
    ∀ (es : List PluginEdit) (s : SrvState), (∀ e ∈ es, edit_in_bounds e = true) →
      ∀ (i : Nat) (p : Peer), s.peers.get? i = some p →
        p.past_state_data = false → p.loading = true →
        ∃ p2, (run_plugin_edits s es).peers.get? i = some p2 ∧
          p2.blockBuffer = p.blockBuffer ++ es.map edit_node ∧
          p2.past_state_data = false ∧ p2.loading = true ∧ p2.received = p.received := by
  intro es
  induction es with
  | nil =>
    intro s _ i p hp h1 h2
    exact ⟨p, hp, by simp, h1, h2, rfl⟩
  | cons e es ih =>
    intro s hb i p hp h1 h2
    have hbe : edit_in_bounds e = true := hb e (by simp)
    have hbs : ∀ e2 ∈ es, edit_in_bounds e2 = true := fun e2 he2 => hb e2 (by simp [he2])
    have hp2 : (apply_plugin_edit s e).peers.get? i
        = some (fanout_peer (edit_node e) p) := by
      rw [(apply_edit_components s e hbe).2, List.get?_map, hp]
      rfl
    have hfp : fanout_peer (edit_node e) p
        = { p with blockBuffer := p.blockBuffer ++ [edit_node e] } :=
      fanout_peer_loading _ p h1 h2
    obtain ⟨p2, hq, hbuf, hq1, hq2, hq3⟩ :=
      ih (apply_plugin_edit s e) hbs i _ hp2 (by rw [hfp]; exact h1) (by rw [hfp]; exact h2)
    refine ⟨p2, ?_, ?_, hq1, hq2, ?_⟩
    · simpa only [run_plugin_edits, List.foldl_cons] using hq
    · rw [hbuf, hfp]
      simp
    · rw [hq3, hfp]

theorem run_edits_past_received :
    ∀ (es : List PluginEdit) (s : SrvState), (∀ e ∈ es, edit_in_bounds e = true) →
      ∀ (i : Nat) (p : Peer), s.peers.get? i = some p → p.past_state_data = true →
        ∃ p2, (run_plugin_edits s es).peers.get? i = some p2 ∧
          p2.received = p.received ++ es.map edit_node ∧ p2.past_state_data = true := by
  intro es
  induction es with
  | nil =>
    intro s _ i p hp h1
    exact ⟨p, hp, by simp, h1⟩
  | cons e es ih =>
    intro s hb i p hp h1
    have hbe : edit_in_bounds e = true := hb e (by simp)
    have hbs : ∀ e2 ∈ es, edit_in_bounds e2 = true := fun e2 he2 => hb e2 (by simp [he2])
    have hp2 : (apply_plugin_edit s e).peers.get? i
        = some (fanout_peer (edit_node e) p) := by
      rw [(apply_edit_components s e hbe).2, List.get?_map, hp]
      rfl
    have hfp : fanout_peer (edit_node e) p
        = { p with received := p.received ++ [edit_node e] } :=
      fanout_peer_past _ p h1
    obtain ⟨p2, hq, hrecv, hq1⟩ :=
      ih (apply_plugin_edit s e) hbs i _ hp2 (by rw [hfp]; exact h1)
    refine ⟨p2, ?_, ?_, hq1⟩
    · simpa only [run_plugin_edits, List.foldl_cons] using hq
    · rw [hrecv, hfp]
      simp

theorem run_edits_map_replay :
    ∀ (es : List PluginEdit) (s : SrvState), (∀ e ∈ es, edit_in_bounds e = true) →
      replay_buffer s.map (es.map edit_node) = (run_plugin_edits s es).map := by
  intro es
  induction es with
  | nil => intro s _; rfl
  | cons e es ih =>
    intro s hb
    have hbe : edit_in_bounds e = true := hb e (by simp)
    have hbs : ∀ e2 ∈ es, edit_in_bounds e2 = true := fun e2 he2 => hb e2 (by simp [he2])
    simp only [List.map_cons, replay_buffer, List.foldl_cons, run_plugin_edits]
    rw [← (apply_edit_components s e hbe).1]
    exact ih (apply_plugin_edit s e) hbs

theorem dispatch_invoked_subset (pl : Player) (tool : Nat) (b : Block) :
    ∀ (ps : List Plugin) (n : String),
      n ∈ (plugin_dispatch_block_destroy_invoked pl tool b ps).1 →
        n ∈ ps.map Plugin.name := by
  intro ps
  induction ps with
  | nil =>
    intro n h
    simp [plugin_dispatch_block_destroy_invoked] at h
  | cons p ps ih =>
    intro n h
    cases hh : p.on_block_destroy with
    | none =>
      simp only [plugin_dispatch_block_destroy_invoked, hh] at h
      simp only [List.map_cons, List.mem_cons]
      exact Or.inr (ih n h)
    | some f =>
      simp only [plugin_dispatch_block_destroy_invoked, hh] at h
      by_cases hd : f pl tool b = PLUGIN_DENY
      · rw [if_pos hd] at h
        simp only [List.mem_singleton] at h
        simp [h]
      · rw [if_neg hd] at h
        simp only [List.mem_cons] at h
        rcases h with h | h
        · simp [h]
        · simp only [List.map_cons, List.mem_cons]
          exact Or.inr (ih n h)

/-! ### Claim theorems -/

/-- Claim C1 (amended): along the player edit paths — `handle_block_action`
requests of every kind, with their structural cascades — a cell at or below
the bedrock boundary (the code's guard protects every `z ≥ 62`, in particular
the bedrock layer `z = 63`) that is solid stays solid across any sequence of
requests, provided the cascade probe itself never touches cells with `z ≥ 62`
(spec section 4.2: bedrock is never removable). The universal claim over all
accepted edits fails, however, because the extension capability
`map_remove_block` is not a player edit path and vacates bedrock: see the
counterexample. -/
theorem bedrock_stays_solid_under_player_edits (ck : Checks) (chain : List Plugin)
    (hcn : ∀ m n q, 62 ≤ q.z → ck.check_node m n q = m q)
    (q : Vector3i) (hq : 62 ≤ q.z) :
    ∀ (reqs : List EditRequest) (s : BState), s.map q ≠ Cell.air →
      (run_block_actions ck chain s reqs).map q ≠ Cell.air := by
  intro reqs
  induction reqs with
  | nil => intro s hs; exact hs
  | cons r rs ih =>
    intro s hs
    simp only [run_block_actions]
    exact ih _ (handle_keeps_solid ck chain hcn q hq s hs r.action_type r.dist
      r.vector_block r.X r.Y r.Z)

/-- Witness for C1: a destroy-one request aimed directly at the bedrock cell
(0, 0, 63) leaves it solid. -/
theorem bedrock_stays_solid_witness :
    (run_block_actions ckTrue [] ⟨allSolid7, spadePlayer, []⟩
      [⟨BLOCKACTION_DESTROY_ONE, 1, ⟨0, 0, 63⟩, 0, 0, 63⟩]).map ⟨0, 0, 63⟩ ≠ Cell.air :=
  bedrock_stays_solid_under_player_edits ckTrue [] (fun _ _ _ _ => rfl)
    ⟨0, 0, 63⟩ (by decide)
    [⟨BLOCKACTION_DESTROY_ONE, 1, ⟨0, 0, 63⟩, 0, 0, 63⟩]
    ⟨allSolid7, spadePlayer, []⟩ (by decide)

/-- Counterexample for C1 as stated: the extension capability
`api_map_remove_block` accepts the bedrock cell (0, 0, 63) — `z = 63` is the
bedrock layer `H - 1` — answers `PLUGIN_OK`, and changes `get` there from
solid to air. -/
theorem map_remove_block_vacates_bedrock :
    (api_map_remove_block srvAllSolid 0 0 63).2 = PLUGIN_OK ∧
    srvAllSolid.map ⟨0, 0, 63⟩ = Cell.solid 7 ∧
    (api_map_remove_block srvAllSolid 0 0 63).1.map ⟨0, 0, 63⟩ = Cell.air := by
  refine ⟨rfl, rfl, rfl⟩

/-- Claim C2 (amended): the dispatch chain is most-recently-loaded first, so
with A loaded first and then B, a block-destroy dispatch invokes B's hook
first (it allows), then A's hook, whose deny ends the walk: dispatch reports
deny, both destroy handlers leave the state untouched, and the short-circuit
protects the modules after the first denier in dispatch order — in the
mirror-image load order (B first, then A) the denier A is dispatched first and
B's hook is indeed never invoked. -/
theorem deny_short_circuits_most_recent_first (ck : Checks) (s : BState)
    (nA nB : String) (fa fb : Player → Nat → Block → Int)
    (hA : ∀ pl tool b, fa pl tool b = PLUGIN_DENY)
    (hB : ∀ pl tool b, fb pl tool b = PLUGIN_ALLOW) :
    (∀ pl tool b,
      plugin_dispatch_block_destroy_invoked pl tool b
        (plugin_register (plugin_register [] ⟨nA, some fa, none⟩) ⟨nB, some fb, none⟩)
        = ([nB, nA], PLUGIN_DENY)) ∧
    (∀ t X Y Z, block_action_destroy_one ck
      (plugin_register (plugin_register [] ⟨nA, some fa, none⟩) ⟨nB, some fb, none⟩)
      s t X Y Z = s) ∧
    (∀ t X Y Z, block_action_destroy_three ck
      (plugin_register (plugin_register [] ⟨nA, some fa, none⟩) ⟨nB, some fb, none⟩)
      s t X Y Z = s) ∧
    (∀ pl tool b,
      plugin_dispatch_block_destroy_invoked pl tool b
        (plugin_register (plugin_register [] ⟨nB, some fb, none⟩) ⟨nA, some fa, none⟩)
        = ([nA], PLUGIN_DENY)) := by
  have hdeny : ∀ pl tool b,
      plugin_dispatch_block_destroy pl tool b
        (plugin_register (plugin_register [] ⟨nA, some fa, none⟩) ⟨nB, some fb, none⟩)
        = PLUGIN_DENY := by
    intro pl tool b
    simp [plugin_register, plugin_dispatch_block_destroy, hA, hB, PLUGIN_ALLOW, PLUGIN_DENY]
  refine ⟨?_, ?_, ?_, ?_⟩
  · intro pl tool b
    simp [plugin_register, plugin_dispatch_block_destroy_invoked, hA, hB,
      PLUGIN_ALLOW, PLUGIN_DENY]
  · intro t X Y Z
    exact destroy_one_noop_of_deny ck _ s t X Y Z (hdeny _ _ _)
  · intro t X Y Z
    exact destroy_three_noop_of_deny ck _ s t X Y Z (hdeny _ _ _)
  · intro pl tool b
    simp [plugin_register, plugin_dispatch_block_destroy_invoked, hA]

/-- Witness for C2: concrete modules A (deny) and B (allow) in load order
[A, B] on a concrete state. -/
theorem deny_short_circuits_witness :
    (∀ pl tool b,
      plugin_dispatch_block_destroy_invoked pl tool b
        (plugin_register (plugin_register [] ⟨"A", some fDeny, none⟩) ⟨"B", some fAllow, none⟩)
        = (["B", "A"], PLUGIN_DENY)) ∧
    (∀ t X Y Z, block_action_destroy_one ckTrue
      (plugin_register (plugin_register [] ⟨"A", some fDeny, none⟩) ⟨"B", some fAllow, none⟩)
      ⟨allSolid7, spadePlayer, []⟩ t X Y Z = ⟨allSolid7, spadePlayer, []⟩) ∧
    (∀ t X Y Z, block_action_destroy_three ckTrue
      (plugin_register (plugin_register [] ⟨"A", some fDeny, none⟩) ⟨"B", some fAllow, none⟩)
      ⟨allSolid7, spadePlayer, []⟩ t X Y Z = ⟨allSolid7, spadePlayer, []⟩) ∧
    (∀ pl tool b,
      plugin_dispatch_block_destroy_invoked pl tool b
        (plugin_register (plugin_register [] ⟨"B", some fAllow, none⟩) ⟨"A", some fDeny, none⟩)
        = (["A"], PLUGIN_DENY)) :=
  deny_short_circuits_most_recent_first ckTrue ⟨allSolid7, spadePlayer, []⟩
    "A" "B" fDeny fAllow (fun _ _ _ => rfl) (fun _ _ _ => rfl)

/-- Counterexample for C2 as stated: with A loaded first (denying) and B
second (allowing), dispatching a block destroy does invoke B's hook — the
chain is walked most-recently-loaded first, so B is consulted before A's deny
stops the walk. -/
theorem second_loaded_hook_invoked_despite_first_deny :
    "B" ∈ (plugin_dispatch_block_destroy_invoked spadePlayer TOOL_SPADE someBlock chainAB).1 ∧
    (plugin_dispatch_block_destroy_invoked spadePlayer TOOL_SPADE someBlock chainAB).2
      = PLUGIN_DENY := by
  decide

/-- Claim C3: a failed validator conjunction or a plugin deny makes each of
the three block-action handlers a silent no-op — the returned state is the
incoming state, so the voxel store, the acting player's record (resource
counter included) and the broadcast log are all unchanged. The rate-limit
timestamps live behind the `block_action_delay_check` oracle, which holds no
state here. -/
theorem rejected_edits_are_silent (ck : Checks) (chain : List Plugin) (s : BState)
    (t X Y Z : Nat) :
    (build_checks ck s.player t X Y Z = false →
      block_action_build ck chain s t X Y Z = s) ∧
    ((plugin_dispatch_block_place s.player chain
        ⟨(X : Int), (Y : Int), (Z : Int), s.player.tool_color⟩).1 = PLUGIN_DENY →
      block_action_build ck chain s t X Y Z = s) ∧
    (destroy_one_checks ck s.player t X Y Z = false →
      block_action_destroy_one ck chain s t X Y Z = s) ∧
    (plugin_dispatch_block_destroy s.player s.player.item
        ⟨(X : Int), (Y : Int), (Z : Int), mapvxl_get_color s.map X Y Z⟩ chain = PLUGIN_DENY →
      block_action_destroy_one ck chain s t X Y Z = s) ∧
    (destroy_three_checks ck t X Y Z = false →
      block_action_destroy_three ck chain s t X Y Z = s) ∧
    (plugin_dispatch_block_destroy s.player s.player.item
        ⟨(X : Int), (Y : Int), (Z : Int), mapvxl_get_color s.map X Y Z⟩ chain = PLUGIN_DENY →
      block_action_destroy_three ck chain s t X Y Z = s) :=
  ⟨build_noop_of_checks_false ck chain s t X Y Z,
   build_noop_of_place_deny ck chain s t X Y Z,
   destroy_one_noop_of_checks_false ck chain s t X Y Z,
   destroy_one_noop_of_deny ck chain s t X Y Z,
   destroy_three_noop_of_checks_false ck chain s t X Y Z,
   destroy_three_noop_of_deny ck chain s t X Y Z⟩

/-- Claim C5 (amended): a destroy-one request is accepted — it changes the
broadcast log — exactly when its validation conjunction holds (which requires
`Z < 62`: the target strictly above the two immutable bottom layers, not
merely strictly above the bedrock layer `z = 63`) and no plugin denies; in
particular any target with `z ≥ 62`, including `z = 62`, the layer immediately
above the single bedrock layer, is rejected on bedrock grounds. -/
theorem destroy_one_legal_iff (ck : Checks) (chain : List Plugin) (s : BState)
    (t X Y Z : Nat) :
    ((block_action_destroy_one ck chain s t X Y Z).sent ≠ s.sent ↔
      (destroy_one_checks ck s.player t X Y Z = true ∧
        plugin_dispatch_block_destroy s.player s.player.item
          ⟨(X : Int), (Y : Int), (Z : Int), mapvxl_get_color s.map X Y Z⟩ chain
          ≠ PLUGIN_DENY)) ∧
    (62 ≤ Z → block_action_destroy_one ck chain s t X Y Z = s) := by
  constructor
  · constructor
    · intro hne
      cases hc : destroy_one_checks ck s.player t X Y Z with
      | false =>
        rw [destroy_one_noop_of_checks_false ck chain s t X Y Z hc] at hne
        exact absurd rfl hne
      | true =>
        by_cases hd : plugin_dispatch_block_destroy s.player s.player.item
            ⟨(X : Int), (Y : Int), (Z : Int), mapvxl_get_color s.map X Y Z⟩ chain = PLUGIN_DENY
        · rw [destroy_one_noop_of_deny ck chain s t X Y Z hd] at hne
          exact absurd rfl hne
        · exact ⟨rfl, hd⟩
    · rintro ⟨hc, hd⟩
      simp only [block_action_destroy_one, hc, Bool.not_true, Bool.false_eq_true, if_false,
        if_neg hd]
      exact sent_append_ne s.sent ⟨t, X, Y, Z⟩
  · intro hz
    apply destroy_one_noop_of_checks_false
    have h62 : ¬ Z < 62 := by omega
    simp [destroy_one_checks, h62]

/-- Counterexample for C5 as stated: a destroy-one at `z = 62` — the layer
immediately above the single bedrock layer `z = 63` — with the gamemode
permitting, the spade selected, its delay elapsed, and no plugin loaded, is
nevertheless rejected: the state is returned untouched. -/
theorem destroy_one_rejected_at_layer_62 :
    block_action_destroy_one ckTrue [] ⟨allSolid7, spadePlayer, []⟩
      BLOCKACTION_DESTROY_ONE 5 5 62 = ⟨allSolid7, spadePlayer, []⟩ ∧
    allSolid7 ⟨5, 5, 62⟩ = Cell.solid 7 :=
  ⟨rfl, rfl⟩

/-- Claim C4 (amended): the 4-unit distance cap is keyed on the actor's held
tool, not on the request kind — a request of any kind from an actor not
holding the gun and farther than 4 units is rejected, while for an actor
holding the gun `handle_block_action` ignores the distance entirely, Build
included; a DestroyColumnOfThree from a gun holder is rejected, but on tool
grounds inside `block_action_destroy_three`, not by the distance gate. -/
theorem distance_cap_exempts_gun_holders (ck : Checks) (chain : List Plugin) (s : BState)
    (t : Nat) (dist dist2 : Rat) (vb : Vector3i) (X Y Z : Nat) :
    (s.player.item ≠ TOOL_GUN → 4 < dist →
      handle_block_action ck chain s t dist vb X Y Z = s) ∧
    (s.player.item = TOOL_GUN →
      handle_block_action ck chain s t dist vb X Y Z =
        handle_block_action ck chain s t dist2 vb X Y Z) ∧
    (s.player.item = TOOL_GUN → block_action_destroy_three ck chain s t X Y Z = s) := by
  refine ⟨?_, ?_, ?_⟩
  · intro hitem hdist
    have h1 : decide (4 < dist) = true := decide_eq_true hdist
    have h2 : decide (s.player.item ≠ TOOL_GUN) = true := decide_eq_true hitem
    simp [handle_block_action, h1, h2]
  · intro hitem
    have h2 : decide (s.player.item ≠ TOOL_GUN) = false := by simp [hitem]
    simp [handle_block_action, h2]
  · intro hitem
    exact destroy_three_noop_of_gun ck chain s t X Y Z hitem

/-- Counterexample for C4 as stated: a Build request from an actor holding the
gun at distance 10 (beyond the 4-unit cap) is accepted — the cell becomes
solid and a block-action broadcast is emitted — so the distance cap does not
apply "regardless of which tool the actor holds". -/
theorem gun_build_beyond_distance_accepted :
    (4 : Rat) < 10 ∧
    airAll ⟨5, 5, 30⟩ = Cell.air ∧
    (handle_block_action ckTrue [] ⟨airAll, gunPlayer, []⟩
      BLOCKACTION_BUILD 10 ⟨5, 5, 30⟩ 5 5 30).map ⟨5, 5, 30⟩ = Cell.solid 3 ∧
    (handle_block_action ckTrue [] ⟨airAll, gunPlayer, []⟩
      BLOCKACTION_BUILD 10 ⟨5, 5, 30⟩ 5 5 30).sent = [⟨BLOCKACTION_BUILD, 5, 5, 30⟩] := by
  refine ⟨by norm_num, rfl, rfl, rfl⟩

/-- Claim C6 (code bug): at the top edge `Z = 0` the column loop
`for (uint32_t z = Z - 1; z <= Z + 1; z++)` starts at `2 ^ 32 - 1` because of
unsigned wraparound, which already exceeds `Z + 1 = 1`, so the loop body never
runs: an accepted DestroyColumnOfThree at (5, 5, 0) vacates neither (5, 5, 0)
nor (5, 5, 1) — both strictly above the bedrock boundary and expected to be
vacated — yet the block-action broadcast is still sent. At an interior target
such as `Z = 30` the loop visits 29, 30, 31 as the claim describes. -/
theorem destroy_three_at_top_edge_vacates_nothing :
    destroy_three_zs 0 = [] ∧
    destroy_three_zs 30 = [29, 30, 31] ∧
    (block_action_destroy_three ckTrue [] ⟨allSolid7, spadePlayer, []⟩
      BLOCKACTION_DESTROY_THREE 5 5 0).map ⟨5, 5, 0⟩ = Cell.solid 7 ∧
    (block_action_destroy_three ckTrue [] ⟨allSolid7, spadePlayer, []⟩
      BLOCKACTION_DESTROY_THREE 5 5 0).map ⟨5, 5, 1⟩ = Cell.solid 7 ∧
    (block_action_destroy_three ckTrue [] ⟨allSolid7, spadePlayer, []⟩
      BLOCKACTION_DESTROY_THREE 5 5 0).sent = [⟨BLOCKACTION_DESTROY_THREE, 5, 5, 0⟩] := by
  refine ⟨by decide, by decide, rfl, rfl, rfl⟩

/-- Claim C7: starting from a resource counter within the cap, an accepted
Build decrements it by one; a subsequent accepted DestroyOne at the same
position restores it to the pre-Build value when the destroying tool is the
spade, and leaves it one below the pre-Build value when the destroying tool is
the gun (ranged destruction never replenishes); along the way the counter
never exceeds 50 (and, being a natural number with the build guarded by
`blocks > 0`, never goes negative). -/
theorem build_then_destroy_roundtrip (ck : Checks) (chain : List Plugin) (s : BState)
    (t1 t2 X Y Z : Nat)
    (hcap : s.player.blocks ≤ 50)
    (hbuild : build_checks ck s.player t1 X Y Z = true)
    (hplace : (plugin_dispatch_block_place s.player chain
      ⟨(X : Int), (Y : Int), (Z : Int), s.player.tool_color⟩).1 ≠ PLUGIN_DENY) :
    (block_action_build ck chain s t1 X Y Z).player.blocks = s.player.blocks - 1 ∧
    (∀ s1, s1 = block_action_build ck chain s t1 X Y Z →
      destroy_one_checks ck s1.player t2 X Y Z = true →
      plugin_dispatch_block_destroy s1.player s1.player.item
        ⟨(X : Int), (Y : Int), (Z : Int), mapvxl_get_color s1.map X Y Z⟩ chain
        ≠ PLUGIN_DENY →
      ((s.player.item = TOOL_SPADE →
        (block_action_destroy_one ck chain s1 t2 X Y Z).player.blocks = s.player.blocks) ∧
       (s.player.item = TOOL_GUN →
        (block_action_destroy_one ck chain s1 t2 X Y Z).player.blocks
          = s.player.blocks - 1))) ∧
    (∀ s1, s1 = block_action_build ck chain s t1 X Y Z →
      (block_action_destroy_one ck chain s1 t2 X Y Z).player.blocks ≤ 50) := by
  have hb0 : 0 < s.player.blocks := by
    have h := hbuild
    simp only [build_checks, Bool.and_eq_true, decide_eq_true_eq] at h
    exact h.1.1.2
  have hpl : (block_action_build ck chain s t1 X Y Z).player
      = { s.player with blocks := s.player.blocks - 1 } := by
    simp [block_action_build, hbuild, hplace]
  refine ⟨by rw [hpl], ?_, ?_⟩
  · intro s1 hs1 hdc hdd
    have hpl2 : s1.player = { s.player with blocks := s.player.blocks - 1 } := by
      rw [hs1]; exact hpl
    have hres : (block_action_destroy_one ck chain s1 t2 X Y Z).player
        = (if s1.player.item ≠ TOOL_GUN then
            (if s1.player.blocks < 50 then { s1.player with blocks := s1.player.blocks + 1 }
             else s1.player)
           else s1.player) := by
      simp [block_action_destroy_one, hdc, hdd]
    constructor
    · intro hsp
      rw [hres, hpl2]
      simp only [hsp]
      rw [if_pos (by decide), if_pos (by omega)]
      simp
      omega
    · intro hgun
      rw [hres, hpl2]
      simp only [hgun]
      rw [if_neg (by decide)]
  · intro s1 hs1
    have hpl2 : s1.player = { s.player with blocks := s.player.blocks - 1 } := by
      rw [hs1]; exact hpl
    cases hc2 : destroy_one_checks ck s1.player t2 X Y Z with
    | false =>
      rw [destroy_one_noop_of_checks_false ck chain s1 t2 X Y Z hc2, hpl2]
      simp
      omega
    | true =>
      by_cases hd2 : plugin_dispatch_block_destroy s1.player s1.player.item
          ⟨(X : Int), (Y : Int), (Z : Int), mapvxl_get_color s1.map X Y Z⟩ chain = PLUGIN_DENY
      · rw [destroy_one_noop_of_deny ck chain s1 t2 X Y Z hd2, hpl2]
        simp
        omega
      · have hres : (block_action_destroy_one ck chain s1 t2 X Y Z).player
            = (if s1.player.item ≠ TOOL_GUN then
                (if s1.player.blocks < 50 then { s1.player with blocks := s1.player.blocks + 1 }
                 else s1.player)
               else s1.player) := by
          simp [block_action_destroy_one, hc2, hd2]
        rw [hres, hpl2]
        split_ifs <;> simp <;> omega

/-- Witness for C7: a spade-holding player with 50 blocks builds at (5, 5, 30)
(counter drops to 49) and then destroys the same cell with the spade; the
counter returns to 50. -/
theorem build_then_destroy_roundtrip_witness :
    spadePlayer.blocks ≤ 50 ∧
    (block_action_destroy_one ckTrue []
      (block_action_build ckTrue [] ⟨airAll, spadePlayer, []⟩ 0 5 5 30)
      1 5 5 30).player.blocks = spadePlayer.blocks := by
  have h := build_then_destroy_roundtrip ckTrue [] ⟨airAll, spadePlayer, []⟩ 0 1 5 5 30
    (by decide) (by decide) (by decide)
  exact ⟨by decide, (h.2.1 _ rfl (by decide) (by decide)).1 rfl⟩

/-- Claim C8: across any sequence of in-bounds capability edits, every peer
still mid terrain transfer has each committed edit appended, in commit order,
to its private block buffer (FIFO, matching global edit order) while receiving
nothing on the wire; every synchronized peer receives the same node sequence
in the same order; and replaying the buffered nodes over the pre-sequence
terrain reproduces the server's final terrain — the state an
always-synchronized observer ends in. -/
theorem deferred_edits_fifo_and_replay (s : SrvState) (es : List PluginEdit)
    (hb : ∀ e ∈ es, edit_in_bounds e = true) :
    (∀ i p, s.peers.get? i = some p → p.past_state_data = false → p.loading = true →
      ∃ p2, (run_plugin_edits s es).peers.get? i = some p2 ∧
        p2.blockBuffer = p.blockBuffer ++ es.map edit_node ∧ p2.received = p.received) ∧
    (∀ i p, s.peers.get? i = some p → p.past_state_data = true →
      ∃ p2, (run_plugin_edits s es).peers.get? i = some p2 ∧
        p2.received = p.received ++ es.map edit_node) ∧
    replay_buffer s.map (es.map edit_node) = (run_plugin_edits s es).map := by
  refine ⟨?_, ?_, run_edits_map_replay es s hb⟩
  · intro i p hp h1 h2
    obtain ⟨p2, h, hbuf, _, _, hrecv⟩ := run_edits_loading_buffer es s hb i p hp h1 h2
    exact ⟨p2, h, hbuf, hrecv⟩
  · intro i p hp h1
    obtain ⟨p2, h, hrecv, _⟩ := run_edits_past_received es s hb i p hp h1
    exact ⟨p2, h, hrecv⟩

/-- Witness for C8: after three concrete capability edits, the loading peer's
buffer holds exactly the three nodes in commit order and it received nothing. -/
theorem deferred_edits_fifo_witness :
    ∃ p2, (run_plugin_edits srvTwoPeers sampleEdits).peers.get? 0 = some p2 ∧
      p2.blockBuffer = loadingPeer.blockBuffer ++ sampleEdits.map edit_node ∧
      p2.received = loadingPeer.received :=
  (deferred_edits_fifo_and_replay srvTwoPeers sampleEdits (by decide)).1 0 loadingPeer
    rfl rfl rfl

/-- Claim C9: a module whose descriptor declares an ABI version different from
`SPADESX_PLUGIN_API_VERSION` is refused by `plugin_load`: the chain is
unchanged (the module is never added), the load returns -1 (the server merely
logs and continues), the library handle is released, and — its name being
absent from the chain — no block-destroy dispatch ever invokes its hook. -/
theorem plugin_load_refuses_version_mismatch (chain : List Plugin) (info : PluginInfo)
    (has_init : Bool) (hooks : Plugin) (init_result : Int)
    (hv : info.api_version ≠ SPADESX_PLUGIN_API_VERSION) :
    plugin_load chain (some info) has_init hooks init_result = ⟨chain, -1, true⟩ ∧
    (∀ pl tool b, hooks.name ∉ chain.map Plugin.name →
      hooks.name ∉ (plugin_dispatch_block_destroy_invoked pl tool b
        (plugin_load chain (some info) has_init hooks init_result).chain).1) := by
  have h1 : plugin_load chain (some info) has_init hooks init_result = ⟨chain, -1, true⟩ := by
    simp [plugin_load, hv]
  refine ⟨h1, ?_⟩
  intro pl tool b hnot hmem
  rw [h1] at hmem
  exact hnot (dispatch_invoked_subset pl tool b chain hooks.name hmem)

/-- Witness for C9: a module declaring ABI version 2 against the host's 1 is
refused on an empty chain; its hook is never invoked by any dispatch. -/
theorem plugin_load_refuses_version_mismatch_witness :
    plugin_load [] (some badInfo) true pluginC 0 = ⟨[], -1, true⟩ ∧
    (∀ pl tool b, pluginC.name ∉ ([] : List Plugin).map Plugin.name →
      pluginC.name ∉ (plugin_dispatch_block_destroy_invoked pl tool b
        (plugin_load [] (some badInfo) true pluginC 0).chain).1) :=
  plugin_load_refuses_version_mismatch [] badInfo true pluginC 0 (by decide)

/-- Claim C10: `api_player_set_hp` on a non-null player rejects `hp > 100`
with `PLUGIN_ERROR_INVALID_HP` leaving the record unchanged; for `hp ≤ 100` it
stores the hp, returns `PLUGIN_OK`, marks the player not alive exactly when
the new hp is 0 and keeps the alive flag otherwise; a null player yields
`PLUGIN_ERROR_NULL_POINTER` with no state. -/
theorem player_set_hp_behaviour (pl : Player) (hp : Nat) :
    (100 < hp → api_player_set_hp (some pl) hp = (PLUGIN_ERROR_INVALID_HP, some pl)) ∧
    (hp ≤ 100 →
      (api_player_set_hp (some pl) hp).1 = PLUGIN_OK ∧
      ∃ pl2, (api_player_set_hp (some pl) hp).2 = some pl2 ∧ pl2.hp = hp ∧
        pl2.item = pl.item ∧ pl2.blocks = pl.blocks ∧
        (hp = 0 → pl2.alive = 0) ∧ (hp ≠ 0 → pl2.alive = pl.alive)) ∧
    api_player_set_hp none hp = (PLUGIN_ERROR_NULL_POINTER, none) := by
  refine ⟨?_, ?_, rfl⟩
  · intro h
    simp [api_player_set_hp, h]
  · intro h
    have hn : ¬ 100 < hp := by omega
    refine ⟨by simp [api_player_set_hp, hn], ?_⟩
    refine ⟨{ pl with hp := hp, alive := if hp = 0 then 0 else pl.alive },
      by simp [api_player_set_hp, hn], rfl, rfl, rfl, ?_, ?_⟩
    · intro h0
      simp [h0]
    · intro h0
      simp [h0]

end SpadesX
